import Mathlib

/-!
Shallow embedding of the AVM-TEST timestamp virtual machine
(src/block.go, src/virtualMachine.go, src/service.go).

Blocks carry a 32-byte payload and a unix timestamp.  The chain state
manager bootstraps a genesis block, queues proposed payloads in a FIFO
mempool and builds new blocks extending the preferred tip.  The external
boundaries (persistence, codec, the embedded core.SnowmanVM / core.Block
bookkeeping from avalanchego) are modelled explicitly: the database is a
list of saved blocks plus a committed flag, with failure-injection flags
so that error paths of SaveBlock / Commit can be exercised; block
identity is a deterministic function of the serialized content
(parentID, data, timestamp), matching the codec/identity boundary.
Timestamps are integers (unix seconds); `now` is passed explicitly.
-/

namespace AvmTest

/-- Block lifecycle status (spec section 3). -/
inductive Status where
  | Unverified : Status
  | Verified : Status
  | Accepted : Status
  | Rejected : Status
deriving DecidableEq, Repr

/-- Block identity: `empty` is ids.Empty (parent of genesis); otherwise the
identity is derived deterministically from the serialized block content
(parentID, data, timestamp), as produced by the codec/identity boundary. -/
inductive BlockID where
  | empty : BlockID
  | hash : BlockID → List Nat → Int → BlockID
deriving DecidableEq, Repr

/-- dataLen from the source: every block payload is 32 bytes. -/
def dataLen : Nat := 32

/-- Block from src/block.go: a core.Block (parentID, status bookkeeping)
plus a 32-byte payload and a unix timestamp. -/
structure Block where
  parentID : BlockID
  data : List Nat
  timestamp : Int
  status : Status
deriving DecidableEq, Repr

/-- A block's identity, derived from its serialized content (the status is
not part of the serialized identity). -/
def Block.id (b : Block) : BlockID := BlockID.hash b.parentID b.data b.timestamp

/-- Errors of the system, one per distinct failure site in the source
(spec section 7 taxonomy). -/
inductive Err where
  | ParentLookupError : Err
  | TimestampTooEarly : Err
  | TimestampTooLate : Err
  | PersistenceError : Err
  | InvalidGenesisData : Err
  | EmptyMempool : Err
  | BadData : Err
deriving DecidableEq, Repr

/-- The persistence boundary: a store of saved blocks, the persisted
lastAccepted pointer, the DBInitialized flag, and a committed flag that
records whether all writes have been flushed.  `saveFails` / `commitFails`
inject failures of the corresponding operations. -/
structure ChainDB where
  store : List Block
  lastAcceptedDB : BlockID
  inited : Bool
  committed : Bool
  saveFails : Bool
  commitFails : Bool
deriving DecidableEq, Repr

/-- Look a block up by identity in the database (the identity lookup
behind core.Block.Parent / vm.GetBlock). -/
def ChainDB.getBlock (db : ChainDB) (i : BlockID) : Option Block :=
  db.store.find? (fun b => decide (Block.id b = i))

/-- vm.SaveBlock(db, b): write the block keyed by its identity; the write
is pending until the next Commit. -/
def ChainDB.saveBlock (db : ChainDB) (b : Block) : ChainDB × Option Err :=
  if db.saveFails then (db, some Err.PersistenceError)
  else ({ db with store := b :: db.store, committed := false }, none)

/-- db.Commit(): flush pending writes. -/
def ChainDB.commit (db : ChainDB) : ChainDB × Option Err :=
  if db.commitFails then (db, some Err.PersistenceError)
  else ({ db with committed := true }, none)

/-- The VM (chain state manager) of src/virtualMachine.go: the embedded
core.SnowmanVM state (db handle, lastAccepted, preferred) plus the FIFO
mempool of pending 32-byte payloads.  `notified` counts readiness signals
sent on the consensus channel (NotifyBlockReady). -/
structure VM where
  db : ChainDB
  lastAccepted : BlockID
  preferred : BlockID
  mempool : List (List Nat)
  notified : Nat
deriving DecidableEq, Repr

/-- vm.NotifyBlockReady(): signal the consensus readiness channel. -/
def VM.notifyBlockReady (vm : VM) : VM :=
  { vm with notified := vm.notified + 1 }

/-- copy(arr[:], src) into a zeroed [32]byte array: the first 32 bytes of
src, right-padded with zero bytes up to 32. -/
def toDataArr (src : List Nat) : List Nat :=
  src.take dataLen ++ List.replicate (dataLen - min src.length dataLen) 0

/-- vm.NewBlock(parentID, data, timestamp): pure factory, returns an
unverified in-memory block (the codec marshal of a well-formed block is
total in the model). -/
def newBlock (parentID : BlockID) (data : List Nat) (timestamp : Int) : Block :=
  { parentID := parentID, data := data, timestamp := timestamp,
    status := Status.Unverified }

/-- The embedded core.Block.Verify() of the avalanchego core package,
modelled from the spec: reports whether the block is already Accepted
(finalized), in which case the outer Verify returns success immediately. -/
def coreBlockVerify (b : Block) : Bool × Option Err :=
  (b.status == Status.Accepted, none)

/-- Block.Verify from src/block.go.  Returns the updated VM (its database
may have gained the saved block) and `none` on success.  The comparisons
mirror the source exactly: the parent check is `b.Timestamp <
parent.Timestamp` and the upper bound is `b.Timestamp >= now + 3600`
(time.Now().Add(time.Hour).Unix()); the error of SaveBlock is discarded,
as in the source, and only Commit's error is returned. -/
def Block.verify (b : Block) (vm : VM) (now : Int) : VM × Option Err :=
  let (accepted, err) := coreBlockVerify b
  if err.isSome || accepted then (vm, err)
  else
    match vm.db.getBlock b.parentID with
    | none => (vm, some Err.ParentLookupError)
    | some parent =>
      if b.timestamp < parent.timestamp then (vm, some Err.TimestampTooEarly)
      else if b.timestamp ≥ now + 3600 then (vm, some Err.TimestampTooLate)
      else
        let (db1, _) := vm.db.saveBlock b
        let (db2, cerr) := db1.commit
        ({ vm with db := db2 }, cerr)

/-- The embedded core.Block.Accept() of the avalanchego core package,
modelled from the spec: marks the block Accepted, sets the in-memory
lastAccepted and preferred to the block's id, and persists the accepted
block and the lastAccepted pointer (flushed at the next Commit). -/
def Block.accept (b : Block) (vm : VM) : VM :=
  let b' := { b with status := Status.Accepted }
  { vm with
    lastAccepted := Block.id b
    preferred := Block.id b
    db := { vm.db with
      store := b' :: vm.db.store
      lastAcceptedDB := Block.id b
      committed := false } }

/-- The embedded core.SnowmanVM.Initialize of the avalanchego core
package, modelled from the spec: attaches the database handle and resumes
the in-memory chain state (lastAccepted, preferred) from the persisted
state; mempool starts empty. -/
def snowmanInit (db : ChainDB) : VM :=
  { db := db, lastAccepted := db.lastAcceptedDB, preferred := db.lastAcceptedDB,
    mempool := [], notified := 0 }

/-- VM.Initialize from src/virtualMachine.go.  If the DBInitialized flag
is unset: reject genesis payloads longer than 32 bytes, otherwise build
the genesis block (empty parent, timestamp 0, payload padded to 32
bytes), save it directly, accept it, set the flag and commit.  If already
initialized: no further work. -/
def initVM (db : ChainDB) (genesisData : List Nat) : VM × Option Err :=
  let vm := snowmanInit db
  if vm.db.inited = false then
    if genesisData.length > dataLen then (vm, some Err.InvalidGenesisData)
    else
      let genesisBlock := newBlock BlockID.empty (toDataArr genesisData) 0
      match vm.db.saveBlock genesisBlock with
      | (db1, some e) => ({ vm with db := db1 }, some e)
      | (db1, none) =>
        let vm1 := Block.accept genesisBlock { vm with db := db1 }
        let vm2 := { vm1 with db := { vm1.db with inited := true } }
        let (db2, cerr) := vm2.db.commit
        ({ vm2 with db := db2 }, cerr)
  else (vm, none)

/-- vm.proposeBlock(data): append to the mempool tail, then notify the
consensus engine that a block is ready. -/
def VM.proposeBlock (vm : VM) (data : List Nat) : VM :=
  VM.notifyBlockReady { vm with mempool := vm.mempool ++ [data] }

/-- vm.BuildBlock(): fail on an empty mempool; otherwise pop the front
payload, build a block extending the preferred tip with timestamp now,
and re-signal readiness when entries remain after the pop. -/
def VM.buildBlock (vm : VM) (now : Int) : VM × Except Err Block :=
  match vm.mempool with
  | [] => (vm, Except.error Err.EmptyMempool)
  | value :: rest =>
    let vm1 := { vm with mempool := rest }
    let block := newBlock vm1.preferred value now
    let vm2 := if rest.length > 0 then VM.notifyBlockReady vm1 else vm1
    (vm2, Except.ok block)

/-- Service.ProposeBlock from src/service.go, parameterized by the
external CB58 decoder (formatting.CB58.FromString: `none` models a
decode/checksum failure).  Returns the updated VM, the error, and the
reply's Success field. -/
def serviceProposeBlock (decode : String → Option (List Nat)) (vm : VM)
    (dataStr : String) : VM × Option Err × Bool :=
  match decode dataStr with
  | none => (vm, some Err.BadData, false)
  | some dataSlice =>
    if dataSlice.length ≠ dataLen then (vm, some Err.BadData, false)
    else (vm.proposeBlock (toDataArr (dataSlice.take dataLen)), none, true)

/-! Concrete fixtures used by witness and counterexample theorems. -/

/-- A concrete accepted parent block with timestamp 5. -/
def p0 : Block :=
  { parentID := BlockID.empty, data := List.replicate 32 0, timestamp := 5,
    status := Status.Accepted }

/-- A concrete unverified child of p0 whose timestamp equals its parent's. -/
def b0 : Block :=
  { parentID := Block.id p0, data := List.replicate 32 1, timestamp := 5,
    status := Status.Unverified }

/-- A concrete database holding p0, fully committed, no injected failures. -/
def db0 : ChainDB :=
  { store := [p0], lastAcceptedDB := Block.id p0, inited := true,
    committed := true, saveFails := false, commitFails := false }

/-- A concrete VM state over db0 with p0 as the preferred tip. -/
def vm0 : VM :=
  { db := db0, lastAccepted := Block.id p0, preferred := Block.id p0,
    mempool := [], notified := 0 }

/-- A child of p0 whose timestamp is exactly now + 3600 for now = 0. -/
def b1 : Block := { b0 with timestamp := 3600 }

/-- A child of p0 with an unremarkable valid timestamp. -/
def b2 : Block := { b0 with timestamp := 10 }

/-- The VM state vm0 with a database whose save operation fails. -/
def vmS : VM := { vm0 with db := { db0 with saveFails := true } }

/-- An empty, uninitialized database with no injected failures. -/
def dbEmpty : ChainDB :=
  { store := [], lastAcceptedDB := BlockID.empty, inited := false,
    committed := false, saveFails := false, commitFails := false }

/-- C1: the claim says a block whose timestamp equals its parent's is
rejected with TimestampTooEarly; the code compares with strict < (contrary
to its own doc comment), so Verify on block b0 (timestamp 5, parent
timestamp 5) succeeds: the claim is right, the code has a bug. -/
theorem c1_equal_timestamp_is_accepted_by_code :
    b0.timestamp = p0.timestamp ∧ b0.status ≠ Status.Accepted ∧
    vm0.db.getBlock b0.parentID = some p0 ∧
    (Block.verify b0 vm0 0).2 = none := by
  refine ⟨rfl, by decide, ?_, rfl⟩
  rfl

/-- C2: the claim says a block whose timestamp is exactly now + 3600 is
accepted by the upper-bound check; the code compares with >= (contrary to
its own doc comment "<= local time + 1 hour"), so Verify on block b1
(timestamp 3600, now 0) is rejected with TimestampTooLate: the claim is
right, the code has a bug. -/
theorem c2_boundary_timestamp_is_rejected_by_code :
    b1.timestamp = 0 + 3600 ∧
    (Block.verify b1 vm0 0).2 = some Err.TimestampTooLate := by
  exact ⟨rfl, rfl⟩

/-- C3 counterexample: on state vmS the save step of persistence fails,
yet Verify on b2 returns success (the source discards SaveBlock's error)
and the block was never stored — refuting "if any step of persistence
(the write or the commit) fails, Verify returns a PersistenceError". -/
theorem c3_save_failure_is_silently_ignored :
    (vmS.db.saveBlock b2).2 = some Err.PersistenceError ∧
    (Block.verify b2 vmS 0).2 = none ∧
    (Block.verify b2 vmS 0).1.db.getBlock (Block.id b2) = none := by
  refine ⟨rfl, rfl, ?_⟩
  rfl

/-- C3 amended: for a block that passes validation, Verify stores the
block and commits before returning when both persistence steps succeed; a
commit failure propagates as PersistenceError, leaves the database
unflushed and leaves the block's status untouched (the stored copy keeps
its original status, never Verified); the write's own error, however, is
discarded by the source, so only commit failures are reported. -/
theorem c3_persistence_amended (vm : VM) (b parent : Block) (now : Int)
    (hacc : b.status ≠ Status.Accepted)
    (hpar : vm.db.getBlock b.parentID = some parent)
    (hlow : ¬ b.timestamp < parent.timestamp)
    (hhigh : ¬ b.timestamp ≥ now + 3600)
    (hsave : vm.db.saveFails = false) :
    (vm.db.commitFails = false →
      (Block.verify b vm now).2 = none ∧
      (Block.verify b vm now).1.db.store = b :: vm.db.store ∧
      (Block.verify b vm now).1.db.committed = true) ∧
    (vm.db.commitFails = true →
      (Block.verify b vm now).2 = some Err.PersistenceError ∧
      (Block.verify b vm now).1.db.store = b :: vm.db.store ∧
      (Block.verify b vm now).1.db.committed = false) := by
  have hb : (b.status == Status.Accepted) = false := by
    simpa using hacc
  simp only [Block.verify, coreBlockVerify, hb, hpar, Option.isSome_none,
    Bool.false_or, Bool.false_eq_true, if_false, hlow, hhigh,
    ChainDB.saveBlock, hsave, ChainDB.commit]
  constructor <;> intro hc <;> simp [hc]

/-- C3 witness: the amended theorem applied to the concrete state vm0,
block b2 and now = 0. -/
theorem c3_persistence_amended_witness :
    (b2.status ≠ Status.Accepted ∧ vm0.db.getBlock b2.parentID = some p0 ∧
      ¬ b2.timestamp < p0.timestamp ∧ ¬ b2.timestamp ≥ 0 + 3600 ∧
      vm0.db.saveFails = false ∧ vm0.db.commitFails = false) ∧
    ((Block.verify b2 vm0 0).2 = none ∧
      (Block.verify b2 vm0 0).1.db.store = b2 :: vm0.db.store ∧
      (Block.verify b2 vm0 0).1.db.committed = true) := by
  have h := c3_persistence_amended vm0 b2 p0 0 (by decide) (by rfl)
    (by decide) (by decide) rfl
  exact ⟨⟨by decide, by rfl, by decide, by decide, rfl, rfl⟩, h.1 rfl⟩

/-- C4: Verify on a block whose status is already Accepted returns success
immediately and leaves the whole VM state (in particular the database)
unchanged: no re-validation, no write, no commit. -/
theorem c4_verify_accepted_is_noop (vm : VM) (b : Block) (now : Int)
    (h : b.status = Status.Accepted) :
    Block.verify b vm now = (vm, none) := by
  simp [Block.verify, coreBlockVerify, h]

/-- C4 witness: Verify on the concrete accepted block p0 over vm0. -/
theorem c4_verify_accepted_is_noop_witness :
    p0.status = Status.Accepted ∧ Block.verify p0 vm0 0 = (vm0, none) :=
  ⟨rfl, c4_verify_accepted_is_noop vm0 p0 0 rfl⟩

/-- C5: on an uninitialized database, Initialize fails with
InvalidGenesisData exactly when the genesis payload exceeds 32 bytes
(whatever the persistence failure flags); and when the payload fits and
persistence succeeds, it builds the genesis block with empty parent,
timestamp 0 and the payload padded to 32 bytes, stores it marked
Accepted, and sets lastAccepted = preferred = genesis.id. -/
theorem c5_genesis_bootstrap (db : ChainDB) (payload : List Nat)
    (hinit : db.inited = false) :
    ((initVM db payload).2 = some Err.InvalidGenesisData ↔ payload.length > 32) ∧
    (payload.length ≤ 32 → db.saveFails = false → db.commitFails = false →
      (initVM db payload).2 = none ∧
      toDataArr payload = payload ++ List.replicate (32 - payload.length) 0 ∧
      (initVM db payload).1.lastAccepted =
        Block.id (newBlock BlockID.empty (toDataArr payload) 0) ∧
      (initVM db payload).1.preferred = (initVM db payload).1.lastAccepted ∧
      (initVM db payload).1.db.getBlock
          (Block.id (newBlock BlockID.empty (toDataArr payload) 0)) =
        some { parentID := BlockID.empty, data := toDataArr payload,
               timestamp := 0, status := Status.Accepted }) := by
  constructor
  · by_cases h32 : 32 < payload.length
    · simp [initVM, snowmanInit, hinit, dataLen, h32]
    · by_cases hs : db.saveFails <;> by_cases hc : db.commitFails <;>
        simp [initVM, snowmanInit, hinit, dataLen, h32, ChainDB.saveBlock,
          ChainDB.commit, hs, hc, Block.accept, newBlock]
  · intro hlen hs hc
    have h32 : ¬ 32 < payload.length := by omega
    have htake : payload.take 32 = payload := List.take_of_length_le hlen
    have hmin : min payload.length 32 = payload.length := min_eq_left hlen
    refine ⟨?_, ?_, ?_, ?_, ?_⟩ <;>
      simp [initVM, snowmanInit, hinit, dataLen, h32, ChainDB.saveBlock, hs,
        ChainDB.commit, hc, Block.accept, newBlock, ChainDB.getBlock,
        Block.id, toDataArr, htake, hmin]

/-- C5 witness: bootstrap of the empty database with a 3-byte payload. -/
theorem c5_genesis_bootstrap_witness :
    (dbEmpty.inited = false ∧ [1, 2, 3].length ≤ 32 ∧
      dbEmpty.saveFails = false ∧ dbEmpty.commitFails = false) ∧
    ((initVM dbEmpty [1, 2, 3]).2 = some Err.InvalidGenesisData ↔
      [1, 2, 3].length > 32) ∧
    ((initVM dbEmpty [1, 2, 3]).2 = none ∧
      (initVM dbEmpty [1, 2, 3]).1.lastAccepted =
        Block.id (newBlock BlockID.empty (toDataArr [1, 2, 3]) 0) ∧
      (initVM dbEmpty [1, 2, 3]).1.preferred =
        (initVM dbEmpty [1, 2, 3]).1.lastAccepted) := by
  have h := c5_genesis_bootstrap dbEmpty [1, 2, 3] rfl
  have h2 := h.2 (by decide) rfl rfl
  exact ⟨⟨rfl, by decide, rfl, rfl⟩, h.1, h2.1, h2.2.2.1, h2.2.2.2.1⟩

/-- C6: after a successful bootstrap, running Initialize again on the
resulting persisted state performs no bootstrap (the database is returned
unchanged), does not error, and restores the same lastAccepted and
preferred as after the first call. -/
theorem c6_idempotent_bootstrap (db : ChainDB) (payload : List Nat)
    (hinit : db.inited = false) (hlen : payload.length ≤ 32)
    (hs : db.saveFails = false) (hc : db.commitFails = false) :
    (initVM (initVM db payload).1.db payload).2 = none ∧
    (initVM (initVM db payload).1.db payload).1.lastAccepted =
      (initVM db payload).1.lastAccepted ∧
    (initVM (initVM db payload).1.db payload).1.preferred =
      (initVM db payload).1.preferred ∧
    (initVM (initVM db payload).1.db payload).1.db = (initVM db payload).1.db := by
  have hlen' : ¬ payload.length > dataLen := by simp [dataLen]; omega
  refine ⟨?_, ?_, ?_, ?_⟩ <;>
    simp [initVM, snowmanInit, hinit, hlen', ChainDB.saveBlock, hs,
      ChainDB.commit, hc, Block.accept, newBlock]

/-- C6 witness: bootstrapping the empty database twice with a 3-byte
payload. -/
theorem c6_idempotent_bootstrap_witness :
    (dbEmpty.inited = false ∧ [1, 2, 3].length ≤ 32 ∧
      dbEmpty.saveFails = false ∧ dbEmpty.commitFails = false) ∧
    (initVM (initVM dbEmpty [1, 2, 3]).1.db [1, 2, 3]).2 = none ∧
    (initVM (initVM dbEmpty [1, 2, 3]).1.db [1, 2, 3]).1.lastAccepted =
      (initVM dbEmpty [1, 2, 3]).1.lastAccepted := by
  have h := c6_idempotent_bootstrap dbEmpty [1, 2, 3] rfl (by decide) rfl rfl
  exact ⟨⟨rfl, by decide, rfl, rfl⟩, h.1, h.2.1⟩

/-- C7: BuildBlock fails with EmptyMempool exactly when the mempool is
empty; on a non-empty mempool it pops the front payload, returns a block
whose parent is the preferred tip, whose data is that payload and whose
timestamp is now, and signals readiness again exactly when entries
remain after the pop. -/
theorem c7_buildBlock_spec (vm : VM) (now : Int) :
    ((VM.buildBlock vm now).2 = Except.error Err.EmptyMempool ↔
      vm.mempool = []) ∧
    (∀ d rest, vm.mempool = d :: rest →
      (VM.buildBlock vm now).2 = Except.ok (newBlock vm.preferred d now) ∧
      (newBlock vm.preferred d now).parentID = vm.preferred ∧
      (newBlock vm.preferred d now).data = d ∧
      (newBlock vm.preferred d now).timestamp = now ∧
      (VM.buildBlock vm now).1.mempool = rest ∧
      (VM.buildBlock vm now).1.notified =
        vm.notified + (if rest = [] then 0 else 1)) := by
  cases h : vm.mempool with
  | nil => simp [VM.buildBlock, h]
  | cons d rest =>
    constructor
    · simp [VM.buildBlock, h]
    · intro d' rest' h'
      injection h' with h1 h2
      subst h1
      subst h2
      by_cases hr : rest = [] <;>
        simp [VM.buildBlock, h, hr, VM.notifyBlockReady, newBlock,
          List.length_pos]

/-- Concrete 32-byte payloads for the mempool witnesses. -/
def dA : List Nat := List.replicate 32 2

/-- A second concrete 32-byte payload. -/
def dB : List Nat := List.replicate 32 3

/-- A third concrete 32-byte payload. -/
def dC : List Nat := List.replicate 32 4

/-- The VM state vm0 with two payloads queued in the mempool. -/
def vmM : VM := { vm0 with mempool := [dA, dB] }

/-- C7 witness: building from the two-entry mempool of vmM pops dA,
leaves dB, re-signals readiness; and on the empty mempool of vm0
BuildBlock fails with EmptyMempool. -/
theorem c7_buildBlock_spec_witness :
    (VM.buildBlock vmM 42).2 = Except.ok (newBlock vmM.preferred dA 42) ∧
    (VM.buildBlock vmM 42).1.mempool = [dB] ∧
    (VM.buildBlock vmM 42).1.notified = vmM.notified + 1 ∧
    ((VM.buildBlock vm0 42).2 = Except.error Err.EmptyMempool ↔
      vm0.mempool = []) := by
  have h := (c7_buildBlock_spec vmM 42).2 dA [dB] rfl
  have he := (c7_buildBlock_spec vm0 42).1
  refine ⟨h.1, h.2.2.2.2.1, ?_, he⟩
  have := h.2.2.2.2.2
  simpa using this

/-- C8: the mempool is FIFO: starting from an empty mempool, proposing
payloads d1, d2, d3 in that order and then building three blocks yields
blocks carrying d1, then d2, then d3 (each extending the unchanged
preferred tip). -/
theorem c8_mempool_fifo (vm : VM) (d1 d2 d3 : List Nat) (t1 t2 t3 : Int)
    (h : vm.mempool = []) :
    ((((vm.proposeBlock d1).proposeBlock d2).proposeBlock d3).buildBlock t1).2 =
      Except.ok (newBlock vm.preferred d1 t1) ∧
    (((((vm.proposeBlock d1).proposeBlock d2).proposeBlock d3).buildBlock
        t1).1.buildBlock t2).2 =
      Except.ok (newBlock vm.preferred d2 t2) ∧
    ((((((vm.proposeBlock d1).proposeBlock d2).proposeBlock d3).buildBlock
        t1).1.buildBlock t2).1.buildBlock t3).2 =
      Except.ok (newBlock vm.preferred d3 t3) := by
  simp [VM.proposeBlock, VM.buildBlock, VM.notifyBlockReady, h]

/-- C8 witness: proposing dA, dB, dC on vm0 (empty mempool) and building
three times returns blocks with data dA, dB, dC in order. -/
theorem c8_mempool_fifo_witness :
    vm0.mempool = [] ∧
    ((((vm0.proposeBlock dA).proposeBlock dB).proposeBlock dC).buildBlock 1).2 =
      Except.ok (newBlock vm0.preferred dA 1) ∧
    (((((vm0.proposeBlock dA).proposeBlock dB).proposeBlock dC).buildBlock
        1).1.buildBlock 2).2 =
      Except.ok (newBlock vm0.preferred dB 2) := by
  have h := c8_mempool_fifo vm0 dA dB dC 1 2 3 rfl
  exact ⟨rfl, h.1, h.2.1⟩

/-- C9: BuildBlock never changes the preferred tip or the lastAccepted
pointer, whether it succeeds or fails. -/
theorem c9_buildBlock_frame (vm : VM) (now : Int) :
    (VM.buildBlock vm now).1.preferred = vm.preferred ∧
    (VM.buildBlock vm now).1.lastAccepted = vm.lastAccepted := by
  cases h : vm.mempool with
  | nil => simp [VM.buildBlock, h]
  | cons d rest =>
    by_cases hr : rest = []
    · simp [VM.buildBlock, h, hr, VM.notifyBlockReady]
    · have hpos : 0 < rest.length := List.length_pos.mpr hr
      simp [VM.buildBlock, h, hpos, VM.notifyBlockReady]

/-- C10: the API propose operation succeeds exactly when the external
CB58 decoder yields exactly 32 bytes, in which case the decoded payload
is appended to the mempool; on a decode failure or a payload of any other
length it returns the bad-data error and leaves the VM (in particular the
mempool) unchanged. -/
theorem c10_propose_api (decode : String → Option (List Nat)) (vm : VM)
    (s : String) :
    (∀ bs, decode s = some bs → bs.length = 32 →
      serviceProposeBlock decode vm s = (vm.proposeBlock bs, none, true) ∧
      (vm.proposeBlock bs).mempool = vm.mempool ++ [bs]) ∧
    (decode s = none →
      serviceProposeBlock decode vm s = (vm, some Err.BadData, false)) ∧
    (∀ bs, decode s = some bs → bs.length ≠ 32 →
      serviceProposeBlock decode vm s = (vm, some Err.BadData, false)) := by
  refine ⟨?_, ?_, ?_⟩
  · intro bs hdec hlen
    have htake : List.take 32 bs = bs := List.take_of_length_le (by omega)
    have harr : toDataArr (List.take 32 bs) = bs := by
      simp [toDataArr, dataLen, htake, hlen]
    simp [serviceProposeBlock, hdec, hlen, dataLen, harr, VM.proposeBlock,
      VM.notifyBlockReady]
  · intro hdec
    simp [serviceProposeBlock, hdec]
  · intro bs hdec hlen
    simp [serviceProposeBlock, hdec, dataLen, hlen]

/-- A concrete request string for the API witness. -/
def anyStr : String := "propose-request"

/-- A decoder that models a CB58 decode success yielding the 32 bytes dA. -/
def decodeOk : String → Option (List Nat) := fun _ => some dA

/-- A decoder that models a CB58 decode (checksum) failure. -/
def decodeFail : String → Option (List Nat) := fun _ => none

/-- C10 witness: with a decoder yielding the 32-byte payload dA the
propose operation appends dA to the mempool and succeeds; with a failing
decoder it returns the bad-data error and leaves the VM unchanged. -/
theorem c10_propose_api_witness :
    decodeOk anyStr = some dA ∧ dA.length = 32 ∧
    serviceProposeBlock decodeOk vm0 anyStr =
      (vm0.proposeBlock dA, none, true) ∧
    (vm0.proposeBlock dA).mempool = vm0.mempool ++ [dA] ∧
    serviceProposeBlock decodeFail vm0 anyStr =
      (vm0, some Err.BadData, false) := by
  have h := (c10_propose_api decodeOk vm0 anyStr).1 dA rfl (by decide)
  have hf := (c10_propose_api decodeFail vm0 anyStr).2.1 rfl
  exact ⟨rfl, by decide, h.1, h.2, hf⟩

end AvmTest
